import Mathlib

/-!
Verification of the at-bus-load pipeline.

The development shallowly embeds the three-stage data-movement pipeline of
the repository:

* `get_at_api_data.py` — API fetch, schema flattening (polars `unnest`),
  allow-list filtering of stops, and the GCS sink (`send_*_to_gcs`), plus the
  ingestion orchestrator `main` (embedded as `ingestion_main`);
* `move_gcs_data_to_bq.py` — discovery of trip identifiers by regex over
  listed blob names, and the BigQuery loads with `WRITE_TRUNCATE`
  disposition, plus the promotion orchestrator `main` (embedded as
  `promotion_main`);
* `entrypoints_params.validate_date` — referenced by both entry points but
  absent from the sources; modelled from the spec.

External effects (HTTP responses, the object store, the warehouse) are made
explicit: HTTP responses are inputs, the object store and the warehouse are
threaded states.  Python exceptions become `Except` values.
-/

/-- A JSON value as it appears in the API payload: scalars, or a structured
object (one polars `Struct` column value).  `date` models a polars `Date`
literal produced by `pl.lit(api_date).cast(pl.Date)`. -/
inductive JValue where
  | str (s : String)
  | int (n : Int)
  | date (s : String)
  | obj (fields : List (String × JValue))

/-- One row of a dataframe: an ordered association of column names to
values.  Polars dataframes with uniform schema are lists of such rows. -/
abbrev JRecord := List (String × JValue)

/-- One step of the polars `unnest` loop, per column of a row: a column
whose value is a structured object is replaced by one column per nested
field; any scalar column passes through unchanged. -/
def flattenKV : String × JValue → List (String × JValue)
  | (_, JValue.obj fs) => fs
  | (k, v) => [(k, v)]

/-- Row-level view of the loop
`for col, dtype in df.schema.items(): if isinstance(dtype, Struct): df = df.unnest(col)`
in `get_at_gtfs_data_from_at_mobile_api`: every struct column of the row is
unnested exactly once, in place. -/
def flattenRecord (r : JRecord) : JRecord :=
  r.flatMap flattenKV

/-- Dataframe-level flattening: the unnest loop applied to every row of the
frame (the schema is uniform across rows, so unnesting a column acts on
each row in the same way). -/
def unnest_struct_columns (df : List JRecord) : List JRecord :=
  df.map flattenRecord

/-- A value is scalar when it is not a structured object. -/
def JValue.isScalar : JValue → Bool
  | JValue.obj _ => false
  | _ => true

/-- A row is flat when no column of it holds a structured object. -/
def isFlatRecord (r : JRecord) : Bool :=
  r.all (fun kv => kv.2.isScalar)

/-- The `.with_columns(pl.lit(api_date).cast(pl.Date).alias("api_date_ingestion"))`
stamp applied by `get_stops_data` and `get_trips_data`: appends the
ingestion-date column to every row. -/
def with_ingestion_date (df : List JRecord) (api_date : String) : List JRecord :=
  df.map (fun r => r ++ [("api_date_ingestion", JValue.date api_date)])

/-- The fixed allow-list `stop_codes` of `filter_stops_data`. -/
def stop_codes : List String :=
  ["8147", "8545", "7149", "8331", "7133"]

/-- The row predicate of `pl.col("stop_code").is_in(stop_codes)`: the row's
`stop_code` column holds a string that is a member of the allow-list. -/
def stopCodeAllowed (r : JRecord) : Bool :=
  match List.lookup "stop_code" r with
  | some (JValue.str c) => stop_codes.contains c
  | _ => false

/-- `filter_stops_data`: keep exactly the rows whose `stop_code` is in the
fixed allow-list, in order. -/
def filter_stops_data (stops_data : List JRecord) : List JRecord :=
  stops_data.filter stopCodeAllowed

/-- Python-level failures raised by the embedded code: `raise Exception(msg)`,
a `KeyError` from a missing dictionary key, and `typer.BadParameter`. -/
inductive PyError where
  | exc (msg : String)
  | keyError (key : String)
  | badParameter (msg : String)
deriving DecidableEq, Repr

/-- A query-parameter value (`Dict[str, str | int]` in the source). -/
inductive ParamValue where
  | str (s : String)
  | int (n : Int)

/-- The HTTP response delivered by `requests.get`.  The JSON body is an
object mapping envelope keys to arrays of raw records; `text` is the raw
body used in error messages. -/
structure HttpResponse where
  status_code : Nat
  body : List (String × List JRecord)
  text : String

/-- What the fetch produces: the log lines emitted, and either a dataframe
or the propagated Python error. -/
structure FetchOutcome where
  logs : List String
  result : Except PyError (List JRecord)

/-- Base URL of the source API. -/
def at_api_base : String := "https://api.at.govt.nz/gtfs/v3/"

/-- `get_at_gtfs_data_from_at_mobile_api`: on a non-200 status it logs and
raises; on 200 it logs an error line when the `"data"` envelope key is
missing, logs the success line, and then evaluates `data["data"]` — which
raises `KeyError` exactly when the key is missing.  Present payloads are
loaded into a dataframe and every struct column is unnested once.  The
response is an explicit input; `params` and `headers` shape only the real
HTTP request. -/
def get_at_gtfs_data_from_at_mobile_api (data_name : String)
    (params : List (String × ParamValue) := [])
    (headers : List (String × String) := [])
    (response : HttpResponse) : FetchOutcome :=
  let _ := params
  let _ := headers
  let url := at_api_base ++ data_name
  if response.status_code ≠ 200 then
    let msg := "Request failed with status code " ++ toString response.status_code
      ++ ": " ++ response.text
    { logs := [msg], result := Except.error (PyError.exc msg) }
  else
    let logs :=
      (if (List.lookup "data" response.body).isNone then
        ["Expected 'data' key in the JSON response"]
      else []) ++
      ["Successfully getting data from request '" ++ url ++ "'."]
    match List.lookup "data" response.body with
    | some json_data =>
        { logs := logs, result := Except.ok (unnest_struct_columns json_data) }
    | none =>
        { logs := logs, result := Except.error (PyError.keyError "data") }

/-- `get_stops_data`: fetch the stops payload for the date and stamp the
ingestion-date column.  The `try/except` of the source logs and re-raises,
so errors propagate unchanged.  The API key (read from the environment in
the source) is an explicit argument. -/
def get_stops_data (api_key : String) (response : HttpResponse)
    (api_date : String) : Except PyError (List JRecord) :=
  match (get_at_gtfs_data_from_at_mobile_api "stops"
      [("filter[date]", ParamValue.str api_date)]
      [("Cache-Control", "no-cache"), ("Ocp-Apim-Subscription-Key", api_key)]
      response).result with
  | Except.ok df => Except.ok (with_ingestion_date df api_date)
  | Except.error e => Except.error e

/-- `get_trips_data`: fetch the stop-trips payload for `(stop_id, api_date)`
with the fixed window parameters and stamp the ingestion-date column. -/
def get_trips_data (api_key : String) (response : HttpResponse)
    (stop_id : String) (api_date : String) : Except PyError (List JRecord) :=
  match (get_at_gtfs_data_from_at_mobile_api ("stops/" ++ stop_id ++ "/stoptrips")
      [("filter[date]", ParamValue.str api_date),
       ("filter[start_hour]", ParamValue.int 3),
       ("filter[hour_range]", ParamValue.int 24)]
      [("Cache-Control", "no-cache"), ("Ocp-Apim-Subscription-Key", api_key)]
      response).result with
  | Except.ok df => Except.ok (with_ingestion_date df api_date)
  | Except.error e => Except.error e

/-- One object in the store: bucket name, object key, and the rows of the
parquet file stored under that key. -/
structure GcsObject where
  bucket : String
  key : String
  contents : List JRecord

/-- The object store: the objects currently present, in creation order. -/
abbrev GcsStore := List GcsObject

/-- `blob.upload_from_filename`: uploading to an address silently replaces
any object already there (last writer wins), otherwise creates it. -/
def putObject (store : GcsStore) (o : GcsObject) : GcsStore :=
  match store with
  | [] => [o]
  | p :: t =>
      if p.bucket = o.bucket ∧ p.key = o.key then o :: t
      else p :: putObject t o

/-- `send_stop_data_to_gcs`: serialize the stops dataframe and upload it to
bucket `"pne-open-data"` under key `"at-bus/{api_date}/stops.parquet"`. -/
def send_stop_data_to_gcs (store : GcsStore) (df_stops : List JRecord)
    (api_date : String) : GcsStore :=
  putObject store
    { bucket := "pne-open-data"
      key := "at-bus/" ++ api_date ++ "/stops.parquet"
      contents := df_stops }

/-- `send_trips_data_to_gcs`: upload the trips dataframe to bucket
`"pne-open-data"` under key `"at-bus/{api_date}/trips_{stop_id}.parquet"`. -/
def send_trips_data_to_gcs (store : GcsStore) (df_trips : List JRecord)
    (stop_id : String) (api_date : String) : GcsStore :=
  putObject store
    { bucket := "pne-open-data"
      key := "at-bus/" ++ api_date ++ "/trips_" ++ stop_id ++ ".parquet"
      contents := df_trips }

/-- `df_stops["id"].to_list()`: the values of the `id` column, in row
order (every surviving stop row carries a string id). -/
def stopIdsOf (df : List JRecord) : List String :=
  df.filterMap (fun r =>
    match List.lookup "id" r with
    | some (JValue.str s) => some s
    | _ => none)

/-- `blob_name.rsplit('/', 1)[-1]`: the final path segment of an object
key — everything after the last `'/'`, or the whole key when it has none. -/
def finalSegment (s : String) : String :=
  List.asString ((s.data.reverse.takeWhile (fun c => c ≠ '/')).reverse)

/-- The literal characters of the regex pieces `trips_` and `\.parquet`. -/
def tripsLit : List Char := "trips_".data

/-- The characters of the `\.parquet` literal that closes the pattern. -/
def parquetLit : List Char := ".parquet".data

/-- Whether, at split position `k` of `cs`, the pattern tail
`(.*)\.parquet` can close: `.parquet` is a literal prefix of the remainder
and the captured text `cs.take k` contains no newline (Python `.` does not
match `'\n'`). -/
def groupCloses (cs : List Char) (k : Nat) : Bool :=
  parquetLit.isPrefixOf (cs.drop k) && (cs.take k).all (fun c => c ≠ '\n')

/-- Greedy matching of `(.*)\.parquet` against `cs`: `.*` consumes as much
as possible and backtracks, so the capture ends at the largest split
position that closes. -/
def greedyFrom (cs : List Char) : Nat → Option (List Char)
  | 0 => if groupCloses cs 0 then some [] else none
  | k + 1 => if groupCloses cs (k + 1) then some (cs.take (k + 1)) else greedyFrom cs k

/-- The capture of `(.*)\.parquet` at the start of `cs`, if any. -/
def greedyGroup (cs : List Char) : Option (List Char) :=
  greedyFrom cs cs.length

/-- `re.search(r'trips_(.*)\.parquet', s)` on the character list of `s`:
try every start position left to right; a match requires the literal
`trips_` followed by a closing of `(.*)\.parquet`. -/
def searchTripsAux : List Char → Option (List Char)
  | [] => none
  | c :: cs =>
      if tripsLit.isPrefixOf (c :: cs) then
        match greedyGroup ((c :: cs).drop tripsLit.length) with
        | some g => some g
        | none => searchTripsAux cs
      else searchTripsAux cs

/-- `re.search(r'trips_(.*)\.parquet', blob_name)`, returning `group(1)`. -/
def searchTrips (s : String) : Option String :=
  (searchTripsAux s.data).map List.asString

/-- The loop of `get_all_route_id_from_trips_file_name` over the listed
blob names: take the final path segment of each name, search it for the
trips pattern, and append the captured route id on a match. -/
def get_all_route_id_from_trips_file_name (blob_names : List String) : List String :=
  blob_names.foldl
    (fun route_ids blob_name =>
      match searchTrips (finalSegment blob_name) with
      | some rid => route_ids ++ [rid]
      | none => route_ids)
    []

/-- Lexicographic comparison of character lists, ordering object keys the
way the store lists them. -/
def charListLe : List Char → List Char → Bool
  | [], _ => true
  | _ :: _, [] => false
  | a :: as, b :: bs =>
      if a.toNat < b.toNat then true
      else if a.toNat = b.toNat then charListLe as bs
      else false

/-- Insert a string into a list sorted by `charListLe`. -/
def insertSorted (s : String) : List String → List String
  | [] => [s]
  | t :: ts => if charListLe s.data t.data then s :: t :: ts else t :: insertSorted s ts

/-- Sort a list of strings lexicographically. -/
def sortStrings (l : List String) : List String :=
  l.foldr insertSorted []

/-- `bucket.list_blobs(prefix=...)`: the keys of the bucket's objects whose
key starts with the prefix, in lexicographic key order. -/
def listBlobNames (store : GcsStore) (bucket_name : String) (pfx : String) : List String :=
  sortStrings ((store.filter
      (fun o => o.bucket = bucket_name ∧ pfx.data.isPrefixOf o.key.data)).map
    GcsObject.key)

/-- The warehouse: `(dataset id, table id)` keys mapped to table rows. -/
abbrev BqState := List ((String × String) × List JRecord)

/-- Read a warehouse table. -/
def getTable : BqState → String × String → Option (List JRecord)
  | [], _ => none
  | e :: t, k => if e.1 = k then some e.2 else getTable t k

/-- Replace a warehouse table (create it when absent). -/
def setTable : BqState → String × String → List JRecord → BqState
  | [], k, rows => [(k, rows)]
  | e :: t, k, rows => if e.1 = k then (k, rows) :: t else e :: setTable t k rows

/-- `bigquery.SourceFormat` as used by the load job. -/
inductive SourceFormat where
  | PARQUET
deriving DecidableEq, Repr

/-- `bigquery.WriteDisposition` values relevant to the load job. -/
inductive WriteDisposition where
  | WRITE_TRUNCATE
  | WRITE_APPEND
deriving DecidableEq, Repr

/-- `bigquery.LoadJobConfig(...)` as constructed by the source. -/
structure LoadJobConfig where
  source_format : SourceFormat
  write_disposition : WriteDisposition
deriving DecidableEq, Repr

/-- The `gs://bucket/key` URI of a stored object. -/
def uriOf (o : GcsObject) : String :=
  "gs://" ++ o.bucket ++ "/" ++ o.key

/-- Resolve a `gs://` URI against the object store. -/
def lookupUri (store : GcsStore) (uri : String) : Option (List JRecord) :=
  (store.find? (fun o => uriOf o == uri)).map GcsObject.contents

/-- Semantics of `load_table_from_uri(...)` followed by `result()`: the job
fails when the source object is absent; otherwise the table is replaced
(`WRITE_TRUNCATE`) or extended (`WRITE_APPEND`) with the object's rows. -/
def bqLoadJob (store : GcsStore) (bq : BqState) (dataset_id table_id uri : String)
    (job_config : LoadJobConfig) : Except PyError BqState :=
  match lookupUri store uri with
  | none => Except.error (PyError.exc ("Not found: " ++ uri))
  | some rows =>
      match job_config.write_disposition with
      | WriteDisposition.WRITE_TRUNCATE =>
          Except.ok (setTable bq (dataset_id, table_id) rows)
      | WriteDisposition.WRITE_APPEND =>
          Except.ok (setTable bq (dataset_id, table_id)
            ((getTable bq (dataset_id, table_id)).getD [] ++ rows))

/-- The job configuration built by `move_parquet_file_to_bq_dataset`:
parquet source format, truncate-and-replace write disposition. -/
def at_bus_job_config : LoadJobConfig :=
  { source_format := SourceFormat.PARQUET
    write_disposition := WriteDisposition.WRITE_TRUNCATE }

/-- `move_parquet_file_to_bq_dataset`: submit the load job with the fixed
configuration and block on its completion. -/
def move_parquet_file_to_bq_dataset (store : GcsStore) (bq : BqState)
    (dataset_id table_id source_uri : String) : Except PyError BqState :=
  bqLoadJob store bq dataset_id table_id source_uri at_bus_job_config

/-- `move_stops_data_to_bq`: load
`gs://{source_bucket_name}/{exec_date}/stops.parquet` into the table
`at_bus_bronze.stops_{exec_date}`. -/
def move_stops_data_to_bq (store : GcsStore) (bq : BqState)
    (source_bucket_name exec_date : String) : Except PyError BqState :=
  move_parquet_file_to_bq_dataset store bq "at_bus_bronze"
    ("stops_" ++ exec_date)
    ("gs://" ++ source_bucket_name ++ "/" ++ exec_date ++ "/stops.parquet")

/-- `get_all_route_id_from_trips_file_name` as called by the promotion
path: list the bucket under the date prefix and extract the route ids. -/
def get_all_route_id_gcs (store : GcsStore) (source_bucket_name exec_date : String) :
    List String :=
  get_all_route_id_from_trips_file_name (listBlobNames store source_bucket_name exec_date)

/-- `move_trips_data_to_bq`: for every discovered route id load
`gs://{source_bucket_name}/{exec_date}/trips_{route_id}.parquet` into
`at_bus_bronze.trips_{route_id}_{exec_date}`, aborting on the first
failure. -/
def move_trips_data_to_bq (store : GcsStore) (bq : BqState)
    (source_bucket_name exec_date : String) : Except PyError BqState :=
  (get_all_route_id_gcs store source_bucket_name exec_date).foldlM
    (fun acc route_id =>
      move_parquet_file_to_bq_dataset store acc "at_bus_bronze"
        ("trips_" ++ route_id ++ "_" ++ exec_date)
        ("gs://" ++ source_bucket_name ++ "/" ++ exec_date ++ "/trips_" ++ route_id
          ++ ".parquet"))
    bq

/-- The numeric value of a decimal digit character. -/
def digitVal (c : Char) : Nat := c.toNat - 48

/-- Gregorian leap-year rule. -/
def isLeapYear (y : Nat) : Bool :=
  (y % 4 == 0 && y % 100 != 0) || y % 400 == 0

/-- Days in a month of a given year. -/
def daysInMonth (y m : Nat) : Nat :=
  if m = 2 then (if isLeapYear y then 29 else 28)
  else if m = 4 ∨ m = 6 ∨ m = 9 ∨ m = 11 then 30
  else 31

/-- A string is in strict `YYYY-MM-DD` form: exactly ten characters, four
digits, a hyphen, two digits, a hyphen, two digits, denoting a valid
calendar date (month 1–12, day within the month, year at least 1). -/
def isValidDateString (s : String) : Bool :=
  match s.data with
  | [y1, y2, y3, y4, h1, m1, m2, h2, d1, d2] =>
      y1.isDigit && y2.isDigit && y3.isDigit && y4.isDigit &&
      h1 == '-' && h2 == '-' &&
      m1.isDigit && m2.isDigit && d1.isDigit && d2.isDigit &&
      (let y := 1000 * digitVal y1 + 100 * digitVal y2 + 10 * digitVal y3 + digitVal y4
       let mo := 10 * digitVal m1 + digitVal m2
       let da := 10 * digitVal d1 + digitVal d2
       decide (1 ≤ y) && decide (1 ≤ mo) && decide (mo ≤ 12) &&
       decide (1 ≤ da) && decide (da ≤ daysInMonth y mo))
  | _ => false

/-- Modelled from the spec: `entrypoints_params.validate_date` is called by
both entry points but its definition is missing from the sources (only its
tests and callers are present).  Per the spec's command surface, a date
argument in strict `YYYY-MM-DD` form is accepted and any other string is
rejected with a parameter error naming the offending value. -/
def validate_date (date : String) : Except String Unit :=
  if isValidDateString date then Except.ok ()
  else Except.error ("Invalid date format: " ++ date ++ ". Please use YYYY-MM-DD format.")

/-- The `main` of `get_at_api_data.py` (ingestion orchestrator): validate
the date, fetch and filter the stops, sink them, then fetch and sink the
trips of each surviving stop id in order.  HTTP responses are inputs (the
stops response, and one response per stop id); the object store is threaded
state; credential plumbing does not affect the modelled state. -/
def ingestion_main (date : String) (api_key : String)
    (stops_response : HttpResponse) (trips_response : String → HttpResponse)
    (store : GcsStore) : Except PyError GcsStore := do
  match validate_date date with
  | Except.error m => throw (PyError.badParameter m)
  | Except.ok () => pure ()
  let api_date := date
  let df_stops ← get_stops_data api_key stops_response api_date
  let df_stops := filter_stops_data df_stops
  let store := send_stop_data_to_gcs store df_stops api_date
  let stop_ids := stopIdsOf df_stops
  stop_ids.foldlM
    (fun st stop_id => do
      let df_trips ← get_trips_data api_key (trips_response stop_id) stop_id api_date
      pure (send_trips_data_to_gcs st df_trips stop_id api_date))
    store

/-- The name of the bucket the promotion orchestrator reads from. -/
def promotion_source_bucket : String := "at-bus-open-data"

/-- The `main` of `move_gcs_data_to_bq.py` (promotion orchestrator):
validate the date, load the stops table from the known address in the
`at-bus-open-data` bucket, then discover the trip ids under the date prefix
and load one table per discovered id. -/
def promotion_main (date : String) (store : GcsStore) (bq : BqState) :
    Except PyError BqState := do
  match validate_date date with
  | Except.error m => throw (PyError.badParameter m)
  | Except.ok () => pure ()
  let exec_date := date
  let bq ← move_stops_data_to_bq store bq promotion_source_bucket exec_date
  move_trips_data_to_bq store bq promotion_source_bucket exec_date

/-- Substring test on character lists: the needle occurs contiguously in
the haystack. -/
def listContainsSub (needle : List Char) : List Char → Bool
  | [] => needle.isEmpty
  | c :: t => needle.isPrefixOf (c :: t) || listContainsSub needle t

/-- A minimal stop row carrying only the allow-list-relevant column, used
to instantiate the filter contract on concrete inputs. -/
def exStop (code : String) : JRecord :=
  [("stop_code", JValue.str code)]

/-- A raw stop record as the API returns it: a scalar `id` column and a
struct `attributes` column holding the `stop_code`. -/
def mkStopRec (sid code : String) : JRecord :=
  [("id", JValue.str sid), ("attributes", JValue.obj [("stop_code", JValue.str code)])]

/-- End-to-end scenario: the stops fetch returns six records of which five
carry allow-listed stop codes. -/
def c1_stops_response : HttpResponse :=
  { status_code := 200
    body := [("data",
      [mkStopRec "s1" "8147", mkStopRec "s2" "8545", mkStopRec "s3" "7149",
       mkStopRec "s4" "8331", mkStopRec "s5" "7133", mkStopRec "s6" "9999"])]
    text := "" }

/-- End-to-end scenario: every per-stop trips fetch returns one record. -/
def c1_trips_response (stop_id : String) : HttpResponse :=
  { status_code := 200
    body := [("data", [[("trip_id", JValue.str ("t-" ++ stop_id))]])]
    text := "" }

/-- A surviving stop row as it stands after flattening, filtering and
date-stamping in the scenario run. -/
def c1_flat_stop (sid code : String) : JRecord :=
  [("id", JValue.str sid), ("stop_code", JValue.str code),
   ("api_date_ingestion", JValue.date "2024-01-01")]

/-- A trips row as it stands after flattening and date-stamping in the
scenario run. -/
def c1_trip_row (sid : String) : JRecord :=
  [("trip_id", JValue.str ("t-" ++ sid)),
   ("api_date_ingestion", JValue.date "2024-01-01")]

/-- The trips object the scenario ingestion run sinks for one stop id. -/
def c1_trip_object (sid : String) : GcsObject :=
  { bucket := "pne-open-data"
    key := "at-bus/2024-01-01/trips_" ++ sid ++ ".parquet"
    contents := [c1_trip_row sid] }

/-- The object store after the scenario ingestion run: one stops object and
five trips objects, all in bucket `pne-open-data` under the `at-bus/` date
prefix. -/
def c1_expected_store : GcsStore :=
  [{ bucket := "pne-open-data"
     key := "at-bus/2024-01-01/stops.parquet"
     contents :=
       [c1_flat_stop "s1" "8147", c1_flat_stop "s2" "8545", c1_flat_stop "s3" "7149",
        c1_flat_stop "s4" "8331", c1_flat_stop "s5" "7133"] },
   c1_trip_object "s1", c1_trip_object "s2", c1_trip_object "s3",
   c1_trip_object "s4", c1_trip_object "s5"]

/-- A JSON body with no `"data"` envelope key, exercising the
missing-envelope branch of the fetch. -/
def c3_response : HttpResponse :=
  { status_code := 200
    body := [("meta", [])]
    text := "" }

-- Supporting lemmas.

theorem flattenRecord_append (r₁ r₂ : JRecord) :
    flattenRecord (r₁ ++ r₂) = flattenRecord r₁ ++ flattenRecord r₂ := by
  simp [flattenRecord]

theorem flattenRecord_of_flat (r : JRecord) (h : isFlatRecord r = true) :
    flattenRecord r = r := by
  induction r with
  | nil => rfl
  | cons kv t ih =>
    simp only [isFlatRecord, List.all_cons, Bool.and_eq_true] at h
    have ht : flattenRecord t = t := ih h.2
    obtain ⟨k, v⟩ := kv
    cases v with
    | obj fs => simp [JValue.isScalar] at h
    | str s => simpa [flattenRecord, flattenKV] using ht
    | int n => simpa [flattenRecord, flattenKV] using ht
    | date s => simpa [flattenRecord, flattenKV] using ht

theorem isPrefixOf_append_self (p t : List Char) : p.isPrefixOf (p ++ t) = true := by
  induction p with
  | nil => simp [List.isPrefixOf]
  | cons c cs ih => simp [List.isPrefixOf, ih]

theorem length_le_of_isPrefixOf (p l : List Char) (h : p.isPrefixOf l = true) :
    p.length ≤ l.length := by
  induction p generalizing l with
  | nil => simp
  | cons c cs ih =>
    cases l with
    | nil => simp [List.isPrefixOf] at h
    | cons b bs =>
      simp only [List.isPrefixOf, Bool.and_eq_true] at h
      simpa using Nat.succ_le_succ (ih bs h.2)

theorem isPrefixOf_eq_false_of_lt (p l : List Char) (h : l.length < p.length) :
    p.isPrefixOf l = false := by
  by_contra hc
  have := length_le_of_isPrefixOf p l (by
    cases hp : p.isPrefixOf l with
    | true => rfl
    | false => exact absurd hp hc)
  omega

theorem listContainsSub_of_parts (pre n post : List Char) :
    listContainsSub n (pre ++ n ++ post) = true := by
  induction pre with
  | nil =>
    cases h : (n ++ post : List Char) with
    | nil =>
      obtain ⟨hn, hp⟩ := List.append_eq_nil.mp h
      simp [hn, hp, listContainsSub, List.isEmpty]
    | cons c t =>
      have : listContainsSub n (c :: t) =
          (n.isPrefixOf (c :: t) || listContainsSub n t) := rfl
      rw [List.nil_append, h, this, ← h, isPrefixOf_append_self]
      simp
  | cons c cs ih =>
    have : listContainsSub n (c :: (cs ++ n ++ post)) =
        (n.isPrefixOf (c :: (cs ++ n ++ post)) || listContainsSub n (cs ++ n ++ post)) := rfl
    simp only [List.cons_append, this, ih, Bool.or_true]

theorem map_flatten_of_all_flat (df : List JRecord)
    (h : df.all isFlatRecord = true) : unnest_struct_columns df = df := by
  induction df with
  | nil => rfl
  | cons r t ih =>
    simp only [List.all_cons, Bool.and_eq_true] at h
    simp [unnest_struct_columns, List.map_cons, flattenRecord_of_flat r h.1]
    simpa [unnest_struct_columns] using ih h.2

theorem route_id_foldl_eq_filterMap (names : List String) (acc : List String) :
    names.foldl
      (fun route_ids blob_name =>
        match searchTrips (finalSegment blob_name) with
        | some rid => route_ids ++ [rid]
        | none => route_ids)
      acc
    = acc ++ names.filterMap (fun n => searchTrips (finalSegment n)) := by
  induction names generalizing acc with
  | nil => simp
  | cons n t ih =>
    cases h : searchTrips (finalSegment n) with
    | some rid => simp [List.foldl_cons, h, ih, List.filterMap_cons]
    | none => simp [List.foldl_cons, h, ih, List.filterMap_cons]

theorem getTable_setTable (bq : BqState) (k : String × String) (rows : List JRecord) :
    getTable (setTable bq k rows) k = some rows := by
  induction bq with
  | nil => simp [setTable, getTable]
  | cons e t ih =>
    by_cases h : e.1 = k
    · simp [setTable, getTable, h]
    · simp [setTable, getTable, h, ih]

theorem setTable_setTable (bq : BqState) (k : String × String) (rows : List JRecord) :
    setTable (setTable bq k rows) k rows = setTable bq k rows := by
  induction bq with
  | nil => simp [setTable]
  | cons e t ih =>
    by_cases h : e.1 = k
    · simp [setTable, h]
    · simp [setTable, h, ih]

theorem isPrefixOf_self_cl (p : List Char) : p.isPrefixOf p = true := by
  have h := isPrefixOf_append_self p []
  rwa [List.append_nil] at h

theorem greedyFrom_of_closes (cs : List Char) (k : Nat) (h : groupCloses cs k = true) :
    greedyFrom cs k = some (cs.take k) := by
  cases k with
  | zero => simp [greedyFrom, h]
  | succ k' => simp [greedyFrom, h]

theorem groupCloses_false_of_high (cs : List Char) (k : Nat)
    (h : cs.length < k + parquetLit.length) : groupCloses cs k = false := by
  have hp : parquetLit.length = 8 := by decide
  have hlt : (cs.drop k).length < parquetLit.length := by
    simp only [List.length_drop]
    omega
  simp [groupCloses, isPrefixOf_eq_false_of_lt _ _ hlt]

theorem greedyFrom_step_down (cs : List Char) (k : Nat)
    (h : cs.length < (k + 1) + parquetLit.length) :
    greedyFrom cs (k + 1) = greedyFrom cs k := by
  simp [greedyFrom, groupCloses_false_of_high cs (k + 1) h]

theorem greedyGroup_append_parquet (m : List Char)
    (hm : m.all (fun c => c ≠ '\n') = true) :
    greedyGroup (m ++ parquetLit) = some m := by
  have hstep : ∀ j, greedyFrom (m ++ parquetLit) (m.length + j)
      = greedyFrom (m ++ parquetLit) m.length := by
    intro j
    induction j with
    | zero => rfl
    | succ j ih =>
      have hlt : (m ++ parquetLit).length < (m.length + j + 1) + parquetLit.length := by
        simp only [List.length_append]
        omega
      have hdown := greedyFrom_step_down (m ++ parquetLit) (m.length + j) hlt
      calc greedyFrom (m ++ parquetLit) (m.length + (j + 1))
          = greedyFrom (m ++ parquetLit) (m.length + j) := hdown
        _ = greedyFrom (m ++ parquetLit) m.length := ih
  have hcloses : groupCloses (m ++ parquetLit) m.length = true := by
    unfold groupCloses
    rw [List.drop_left, List.take_left, isPrefixOf_self_cl, hm]
    rfl
  have hlen : (m ++ parquetLit).length = m.length + parquetLit.length :=
    List.length_append m parquetLit
  calc greedyGroup (m ++ parquetLit)
      = greedyFrom (m ++ parquetLit) (m.length + parquetLit.length) := by
        unfold greedyGroup
        rw [hlen]
    _ = greedyFrom (m ++ parquetLit) m.length := hstep parquetLit.length
    _ = some ((m ++ parquetLit).take m.length) := greedyFrom_of_closes _ _ hcloses
    _ = some m := by rw [List.take_left]

theorem searchTripsAux_cons_match (c : Char) (cs : List Char)
    (hpre : tripsLit.isPrefixOf (c :: cs) = true) (g : List Char)
    (hg : greedyGroup ((c :: cs).drop tripsLit.length) = some g) :
    searchTripsAux (c :: cs) = some g := by
  simp [searchTripsAux, hpre, hg]

theorem searchTripsAux_cons_skip (c : Char) (cs : List Char)
    (hpre : tripsLit.isPrefixOf (c :: cs) = false) :
    searchTripsAux (c :: cs) = searchTripsAux cs := by
  simp [searchTripsAux, hpre]

theorem searchTripsAux_first_match (a m : List Char)
    (hm : m.all (fun c => c ≠ '\n') = true)
    (hfirst : ∀ i, i < a.length →
      tripsLit.isPrefixOf ((a ++ (tripsLit ++ (m ++ parquetLit))).drop i) = false) :
    searchTripsAux (a ++ (tripsLit ++ (m ++ parquetLit))) = some m := by
  induction a with
  | nil =>
    have hpre : tripsLit.isPrefixOf (tripsLit ++ (m ++ parquetLit)) = true :=
      isPrefixOf_append_self tripsLit (m ++ parquetLit)
    have hg : greedyGroup ((tripsLit ++ (m ++ parquetLit)).drop tripsLit.length)
        = some m := by
      rw [List.drop_left tripsLit (m ++ parquetLit)]
      exact greedyGroup_append_parquet m hm
    cases htl : (tripsLit ++ (m ++ parquetLit) : List Char) with
    | nil =>
      exact absurd (List.append_eq_nil.mp htl).1 (by decide)
    | cons c cs =>
      rw [htl] at hpre hg
      simpa [htl] using searchTripsAux_cons_match c cs hpre m hg
  | cons c a' ih =>
    have h0 : tripsLit.isPrefixOf (c :: (a' ++ (tripsLit ++ (m ++ parquetLit)))) = false := by
      have := hfirst 0 (by simp)
      simpa using this
    have hfirst' : ∀ i, i < a'.length →
        tripsLit.isPrefixOf ((a' ++ (tripsLit ++ (m ++ parquetLit))).drop i) = false := by
      intro i hi
      have := hfirst (i + 1) (by simpa using Nat.succ_lt_succ hi)
      simpa using this
    calc searchTripsAux ((c :: a') ++ (tripsLit ++ (m ++ parquetLit)))
        = searchTripsAux (a' ++ (tripsLit ++ (m ++ parquetLit))) :=
          searchTripsAux_cons_skip c _ h0
      _ = some m := ih hfirst'

theorem fetch_result_not_badParameter (dn : String) (p : List (String × ParamValue))
    (hd : List (String × String)) (resp : HttpResponse) (msg : String) :
    (get_at_gtfs_data_from_at_mobile_api dn p hd resp).result
      ≠ Except.error (PyError.badParameter msg) := by
  unfold get_at_gtfs_data_from_at_mobile_api
  by_cases hs : resp.status_code ≠ 200
  · simp [hs]
  · cases hl : List.lookup "data" resp.body with
    | some json_data => simp [hs, hl]
    | none => simp [hs, hl]

theorem get_stops_data_not_badParameter (ak : String) (resp : HttpResponse)
    (d msg : String) :
    get_stops_data ak resp d ≠ Except.error (PyError.badParameter msg) := by
  unfold get_stops_data
  cases hr : (get_at_gtfs_data_from_at_mobile_api "stops"
      [("filter[date]", ParamValue.str d)]
      [("Cache-Control", "no-cache"), ("Ocp-Apim-Subscription-Key", ak)]
      resp).result with
  | ok df => simp [hr]
  | error e =>
    intro hc
    have he : e = PyError.badParameter msg := by
      simpa using hc
    exact fetch_result_not_badParameter "stops"
      [("filter[date]", ParamValue.str d)]
      [("Cache-Control", "no-cache"), ("Ocp-Apim-Subscription-Key", ak)]
      resp msg (by rw [hr, he])

theorem get_trips_data_not_badParameter (ak : String) (resp : HttpResponse)
    (sid d msg : String) :
    get_trips_data ak resp sid d ≠ Except.error (PyError.badParameter msg) := by
  unfold get_trips_data
  cases hr : (get_at_gtfs_data_from_at_mobile_api ("stops/" ++ sid ++ "/stoptrips")
      [("filter[date]", ParamValue.str d),
       ("filter[start_hour]", ParamValue.int 3),
       ("filter[hour_range]", ParamValue.int 24)]
      [("Cache-Control", "no-cache"), ("Ocp-Apim-Subscription-Key", ak)]
      resp).result with
  | ok df => simp [hr]
  | error e =>
    intro hc
    have he : e = PyError.badParameter msg := by
      simpa using hc
    exact fetch_result_not_badParameter ("stops/" ++ sid ++ "/stoptrips")
      [("filter[date]", ParamValue.str d),
       ("filter[start_hour]", ParamValue.int 3),
       ("filter[hour_range]", ParamValue.int 24)]
      [("Cache-Control", "no-cache"), ("Ocp-Apim-Subscription-Key", ak)]
      resp msg (by rw [hr, he])

theorem trips_foldlM_not_badParameter (ak : String) (tr : String → HttpResponse)
    (d : String) (ids : List String) (st : GcsStore) (msg : String) :
    ids.foldlM
      (fun st stop_id => do
        let df_trips ← get_trips_data ak (tr stop_id) stop_id d
        pure (send_trips_data_to_gcs st df_trips stop_id d))
      st ≠ Except.error (PyError.badParameter msg) := by
  induction ids generalizing st with
  | nil => simp [pure, Except.pure]
  | cons i t ih =>
    rw [List.foldlM_cons]
    cases hr : get_trips_data ak (tr i) i d with
    | ok df =>
      simpa [hr, Bind.bind, Except.bind] using ih (send_trips_data_to_gcs st df i d)
    | error e =>
      simp only [hr, Bind.bind, Except.bind]
      intro hc
      have he : e = PyError.badParameter msg := by
        simpa using hc
      exact get_trips_data_not_badParameter ak (tr i) i d msg (by rw [hr, he])

theorem bqLoadJob_not_badParameter (store : GcsStore) (bq : BqState)
    (d t uri : String) (cfg : LoadJobConfig) (msg : String) :
    bqLoadJob store bq d t uri cfg ≠ Except.error (PyError.badParameter msg) := by
  unfold bqLoadJob
  cases h : lookupUri store uri with
  | none => simp [h]
  | some rows =>
    cases hw : cfg.write_disposition with
    | WRITE_TRUNCATE => simp [h, hw]
    | WRITE_APPEND => simp [h, hw]

theorem bq_foldlM_not_badParameter (store : GcsStore) (bname d : String)
    (ids : List String) (bq : BqState) (msg : String) :
    ids.foldlM
      (fun acc route_id =>
        move_parquet_file_to_bq_dataset store acc "at_bus_bronze"
          ("trips_" ++ route_id ++ "_" ++ d)
          ("gs://" ++ bname ++ "/" ++ d ++ "/trips_" ++ route_id ++ ".parquet"))
      bq ≠ Except.error (PyError.badParameter msg) := by
  induction ids generalizing bq with
  | nil => simp [pure, Except.pure]
  | cons i t ih =>
    rw [List.foldlM_cons]
    cases hr : move_parquet_file_to_bq_dataset store bq "at_bus_bronze"
        ("trips_" ++ i ++ "_" ++ d)
        ("gs://" ++ bname ++ "/" ++ d ++ "/trips_" ++ i ++ ".parquet") with
    | ok bq' => simpa [hr, Bind.bind, Except.bind] using ih bq'
    | error e =>
      simp only [hr, Bind.bind, Except.bind]
      intro hc
      have he : e = PyError.badParameter msg := by
        simpa using hc
      exact bqLoadJob_not_badParameter store bq "at_bus_bronze" _ _ at_bus_job_config msg
        (by
          have := hr
          unfold move_parquet_file_to_bq_dataset at this
          rw [this, he])

theorem putObject_keys_of_contents (store : GcsStore) (b k : String)
    (c c' : List JRecord) :
    (putObject store { bucket := b, key := k, contents := c }).map
        (fun o => (o.bucket, o.key))
      = (putObject store { bucket := b, key := k, contents := c' }).map
        (fun o => (o.bucket, o.key)) := by
  induction store with
  | nil => simp [putObject]
  | cons p t ih =>
    by_cases h : p.bucket = b ∧ p.key = k
    · simp [putObject, h]
    · simp [putObject, h, ih]

-- Claim theorems.

/-- C5: `filter_stops_data` returns a subsequence of its input (order
preserved) containing exactly the records whose `stop_code` is in the fixed
5-element allow-list; 5 allow-listed inputs yield length 5, 2 of 4 yield
length 2, and no matches or empty input yield the empty sequence, not an
error. -/
theorem claim_c5 :
    (∀ df : List JRecord,
      List.Sublist (filter_stops_data df) df ∧
      (∀ r ∈ filter_stops_data df,
        ∃ c, List.lookup "stop_code" r = some (JValue.str c) ∧ c ∈ stop_codes) ∧
      (∀ r ∈ df, stopCodeAllowed r = true → r ∈ filter_stops_data df)) ∧
    filter_stops_data [] = [] ∧
    (filter_stops_data
      [exStop "8147", exStop "8545", exStop "7149", exStop "8331",
       exStop "7133"]).length = 5 ∧
    (filter_stops_data
      [exStop "8147", exStop "1111", exStop "8545", exStop "2222"]).length = 2 ∧
    filter_stops_data [exStop "1111", exStop "2222"] = [] := by
  refine ⟨fun df => ⟨List.filter_sublist df, ?_, ?_⟩, rfl, rfl, rfl, rfl⟩
  · intro r hr
    have hp := (List.mem_filter.mp hr).2
    unfold stopCodeAllowed at hp
    cases hl : List.lookup "stop_code" r with
    | none => rw [hl] at hp; simp at hp
    | some v =>
      rw [hl] at hp
      cases v with
      | str c =>
        refine ⟨c, rfl, ?_⟩
        simpa using hp
      | int n => simp at hp
      | date s => simp at hp
      | obj fs => simp at hp
  · intro r hrdf hp
    exact List.mem_filter.mpr ⟨hrdf, hp⟩

/-- C5 witness: a record with allow-listed code `8147` survives the
filter. -/
theorem claim_c5_witness : exStop "8147" ∈ filter_stops_data [exStop "8147"] :=
  (claim_c5.1 [exStop "8147"]).2.2 (exStop "8147") (List.mem_singleton.mpr rfl)
    (by decide)

/-- C9: flattening is idempotent on already-flat record sets — unnesting a
frame none of whose columns holds a structured object is a no-op. -/
theorem claim_c9 (df : List JRecord) (h : df.all isFlatRecord = true) :
    unnest_struct_columns df = df :=
  map_flatten_of_all_flat df h

/-- C9 witness: a concrete flat frame is returned unchanged. -/
theorem claim_c9_witness :
    unnest_struct_columns [[("a", JValue.str "x")]] = [[("a", JValue.str "x")]] :=
  claim_c9 [[("a", JValue.str "x")]] (by decide)

/-- C6: flattening resolves exactly one level of nesting — a structured
column is replaced by one column per nested field verbatim (so a
doubly-nested structure stays structured), scalar columns pass through
unchanged, flattening distributes over column concatenation, and
`get_stops_data` appends the caller-supplied ingestion-date column to every
row. -/
theorem claim_c6 :
    (∀ r₁ r₂ : JRecord,
      flattenRecord (r₁ ++ r₂) = flattenRecord r₁ ++ flattenRecord r₂) ∧
    (∀ (k : String) (fs : List (String × JValue)),
      flattenRecord [(k, JValue.obj fs)] = fs) ∧
    (∀ (k : String) (v : JValue), v.isScalar = true →
      flattenRecord [(k, v)] = [(k, v)]) ∧
    (∀ (k k₂ : String) (fs₂ : List (String × JValue)),
      flattenRecord [(k, JValue.obj [(k₂, JValue.obj fs₂)])]
        = [(k₂, JValue.obj fs₂)]) ∧
    (∀ (ak : String) (resp : HttpResponse) (d : String) (out : List JRecord),
      get_stops_data ak resp d = Except.ok out →
      ∀ r ∈ out, ∃ r₀, r = r₀ ++ [("api_date_ingestion", JValue.date d)]) := by
  refine ⟨flattenRecord_append, ?_, ?_, ?_, ?_⟩
  · intro k fs
    simp [flattenRecord, flattenKV]
  · intro k v hv
    cases v with
    | obj fs => simp [JValue.isScalar] at hv
    | str s => simp [flattenRecord, flattenKV]
    | int n => simp [flattenRecord, flattenKV]
    | date s => simp [flattenRecord, flattenKV]
  · intro k k₂ fs₂
    simp [flattenRecord, flattenKV]
  · intro ak resp d out h r hr
    unfold get_stops_data at h
    cases hf : (get_at_gtfs_data_from_at_mobile_api "stops"
        [("filter[date]", ParamValue.str d)]
        [("Cache-Control", "no-cache"), ("Ocp-Apim-Subscription-Key", ak)]
        resp).result with
    | error e => rw [hf] at h; simp at h
    | ok df =>
      rw [hf] at h
      have hout : out = with_ingestion_date df d := by
        simpa using h.symm
      rw [hout] at hr
      obtain ⟨r₀, _, hr₀⟩ := List.mem_map.mp hr
      exact ⟨r₀, hr₀.symm⟩

/-- C6 witness: a scalar column passes through unchanged, and a concrete
stops fetch result carries the ingestion-date column on its single row. -/
theorem claim_c6_witness :
    flattenRecord [("a", JValue.str "x")] = [("a", JValue.str "x")] ∧
    (∃ r₀, ([("x", JValue.int 1), ("api_date_ingestion", JValue.date "2024-01-01")] : JRecord)
      = r₀ ++ [("api_date_ingestion", JValue.date "2024-01-01")]) :=
  ⟨claim_c6.2.2.1 "a" (JValue.str "x") rfl,
   claim_c6.2.2.2.2 "K"
     { status_code := 200, body := [("data", [[("x", JValue.int 1)]])], text := "" }
     "2024-01-01" _ rfl _ (List.mem_singleton.mpr rfl)⟩

/-- C7: discovery returns, in listing order, exactly the captured groups of
the final path segments matching `trips_(.*)\.parquet`; the stops file
yields no id, embedded punctuation is preserved verbatim, and an empty or
trips-free listing yields the empty sequence, not an error. -/
theorem claim_c7 :
    (∀ names : List String,
      get_all_route_id_from_trips_file_name names
        = names.filterMap (fun n => searchTrips (finalSegment n))) ∧
    get_all_route_id_from_trips_file_name ["2024-01-01/trips_route_001.parquet"]
      = ["route_001"] ∧
    get_all_route_id_from_trips_file_name ["2024-01-01/stops.parquet"] = [] ∧
    get_all_route_id_from_trips_file_name ["2024-01-01/trips_route-001-A.parquet"]
      = ["route-001-A"] ∧
    get_all_route_id_from_trips_file_name [] = [] ∧
    (∀ names : List String,
      (∀ n ∈ names, searchTrips (finalSegment n) = none) →
      get_all_route_id_from_trips_file_name names = []) := by
  have hmain : ∀ names : List String,
      get_all_route_id_from_trips_file_name names
        = names.filterMap (fun n => searchTrips (finalSegment n)) := by
    intro names
    unfold get_all_route_id_from_trips_file_name
    simpa using route_id_foldl_eq_filterMap names []
  refine ⟨hmain, rfl, rfl, rfl, rfl, ?_⟩
  intro names h
  rw [hmain names]
  exact List.filterMap_eq_nil_iff.mpr h

/-- C7 witness: a listing with no trips-shaped names yields the empty id
sequence. -/
theorem claim_c7_witness :
    get_all_route_id_from_trips_file_name ["2024-01-01/stops.parquet", "notes.txt"]
      = [] :=
  claim_c7.2.2.2.2.2 ["2024-01-01/stops.parquet", "notes.txt"] (by
    intro n hn
    cases hn with
    | head => rfl
    | tail _ hn' =>
      cases hn' with
      | head => rfl
      | tail _ hn'' => cases hn'')

/-- C2: evaluation of `send_stop_data_to_gcs` at the claim's input.  The
sinking is a `putObject` at a key that is a function of the date alone —
the written addresses are independent of the record contents — but for date
`"2024-01-01"` the key the code produces is
`"at-bus/2024-01-01/stops.parquet"`, not the `"2024-01-01/stops.parquet"`
that the claim (and the repository's own test
`test_send_stop_data_to_gcs_success`) states. -/
theorem claim_c2 :
    (∀ (store : GcsStore) (df : List JRecord),
      send_stop_data_to_gcs store df "2024-01-01"
        = putObject store
            { bucket := "pne-open-data"
              key := "at-bus/2024-01-01/stops.parquet"
              contents := df }) ∧
    (∀ (store : GcsStore) (df df' : List JRecord),
      (send_stop_data_to_gcs store df "2024-01-01").map (fun o => (o.bucket, o.key))
        = (send_stop_data_to_gcs store df' "2024-01-01").map (fun o => (o.bucket, o.key))) ∧
    ("at-bus/2024-01-01/stops.parquet" : String) ≠ "2024-01-01/stops.parquet" := by
  refine ⟨fun store df => rfl, fun store df df' => ?_, by decide⟩
  exact putObject_keys_of_contents store "pne-open-data"
    ("at-bus/" ++ "2024-01-01" ++ "/stops.parquet") df df'

/-- C3 counterexample: on a 200 response whose body lacks the `"data"` key,
the fetch does log the problem, but it does not return a result — the
subsequent `data["data"]` access raises `KeyError`, contradicting the claim
that a result is returned rather than an error being raised. -/
theorem claim_c3_counterexample :
    (get_at_gtfs_data_from_at_mobile_api "stops" [] [] c3_response).logs.contains
        "Expected 'data' key in the JSON response" = true ∧
    (get_at_gtfs_data_from_at_mobile_api "stops" [] [] c3_response).result
      = Except.error (PyError.keyError "data") :=
  ⟨rfl, rfl⟩

/-- C3 (amended): when the 200 response body lacks the `"data"` envelope
key, the fetch logs `Expected 'data' key in the JSON response` and then
raises a `KeyError` on the envelope access; no result is returned. -/
theorem claim_c3 (dn : String) (p : List (String × ParamValue))
    (hd : List (String × String)) (resp : HttpResponse)
    (h200 : resp.status_code = 200)
    (hnone : List.lookup "data" resp.body = none) :
    (get_at_gtfs_data_from_at_mobile_api dn p hd resp).logs.contains
        "Expected 'data' key in the JSON response" = true ∧
    (get_at_gtfs_data_from_at_mobile_api dn p hd resp).result
      = Except.error (PyError.keyError "data") := by
  unfold get_at_gtfs_data_from_at_mobile_api
  simp [h200, hnone]

/-- C3 witness: the amended behavior at a concrete envelope-free
response. -/
theorem claim_c3_witness :
    (get_at_gtfs_data_from_at_mobile_api "trips" [] [] c3_response).logs.contains
        "Expected 'data' key in the JSON response" = true ∧
    (get_at_gtfs_data_from_at_mobile_api "trips" [] [] c3_response).result
      = Except.error (PyError.keyError "data") :=
  claim_c3 "trips" [] [] c3_response rfl rfl

/-- C8: every warehouse load runs with the truncate-and-replace write
disposition, so a second load of the same URI into the same table leaves
the state unchanged, and the resulting table holds exactly the contents of
the source object — prior contents are discarded, never appended. -/
theorem claim_c8 :
    at_bus_job_config.write_disposition = WriteDisposition.WRITE_TRUNCATE ∧
    (∀ (gcs : GcsStore) (bq : BqState) (d t uri : String) (bq₁ : BqState),
      move_parquet_file_to_bq_dataset gcs bq d t uri = Except.ok bq₁ →
      move_parquet_file_to_bq_dataset gcs bq₁ d t uri = Except.ok bq₁ ∧
      getTable bq₁ (d, t) = lookupUri gcs uri) := by
  refine ⟨rfl, ?_⟩
  intro gcs bq d t uri bq₁ h
  unfold move_parquet_file_to_bq_dataset bqLoadJob at_bus_job_config at h ⊢
  cases hu : lookupUri gcs uri with
  | none => rw [hu] at h; simp at h
  | some rows =>
    rw [hu] at h
    have hbq : bq₁ = setTable bq (d, t) rows := by
      simpa using h.symm
    subst hbq
    refine ⟨?_, ?_⟩
    · simpa using setTable_setTable bq (d, t) rows
    · exact getTable_setTable bq (d, t) rows

/-- C8 witness: loading a concrete object twice equals loading it once. -/
theorem claim_c8_witness :
    move_parquet_file_to_bq_dataset
      [{ bucket := "b", key := "k", contents := [] }]
      [(("d", "t"), [])] "d" "t" "gs://b/k" = Except.ok [(("d", "t"), [])] :=
  (claim_c8.2 [{ bucket := "b", key := "k", contents := [] }] [] "d" "t" "gs://b/k"
    [(("d", "t"), [])] rfl).1

/-- C10 counterexample: the claim fails as stated — the final path segment
`trips_a\nb.parquet` contains `trips_` before a `.parquet` suffix, yet no
id is extracted, because the regex `.` does not match the newline between
them. -/
theorem claim_c10_counterexample :
    ("trips_a\nb.parquet" : String)
      = String.mk (tripsLit ++ ("a\nb".data ++ parquetLit)) ∧
    searchTrips "trips_a\nb.parquet" = none ∧
    get_all_route_id_from_trips_file_name ["2024-01-01/trips_a\nb.parquet"] = [] :=
  ⟨rfl, rfl, rfl⟩

/-- C10 (amended): discovery's pattern match is an unanchored substring
search — for every segment of the form `a ++ "trips_" ++ m ++ ".parquet"`
that contains no newline, where no earlier position starts `trips_`, the
extracted id is exactly `m`, the text between the first `trips_` occurrence
and the last `.parquet` (so keys that do not begin with `trips_`, such as
`old_trips_x.parquet`, still contribute the id `x`). -/
theorem claim_c10 :
    (∀ a m : List Char,
      (a ++ (tripsLit ++ (m ++ parquetLit))).all (fun c => c ≠ '\n') = true →
      (∀ i, i < a.length →
        tripsLit.isPrefixOf ((a ++ (tripsLit ++ (m ++ parquetLit))).drop i) = false) →
      searchTrips (String.mk (a ++ (tripsLit ++ (m ++ parquetLit))))
        = some (List.asString m)) ∧
    get_all_route_id_from_trips_file_name ["2024-01-01/old_trips_x.parquet"]
      = ["x"] := by
  refine ⟨?_, rfl⟩
  intro a m hall hfirst
  have hm : m.all (fun c => c ≠ '\n') = true := by
    simp only [List.all_append, Bool.and_eq_true] at hall
    exact hall.2.2.1
  show (searchTripsAux (a ++ (tripsLit ++ (m ++ parquetLit)))).map List.asString
      = some (List.asString m)
  rw [searchTripsAux_first_match a m hm hfirst]
  rfl

/-- C10 witness: the amended statement at the key `old_trips_x.parquet`,
which does not begin with `trips_`. -/
theorem claim_c10_witness :
    searchTrips (String.mk ("old_".data ++ (tripsLit ++ ("x".data ++ parquetLit))))
      = some (List.asString "x".data) :=
  claim_c10.1 "old_".data "x".data (by decide) (by decide)

/-- C4: a date in strict `YYYY-MM-DD` form is accepted by validation; any
other string is rejected with a parameter error whose message names the
offending value, and both entry points then fail with exactly that
parameter error; on a well-formed date neither entry point ever produces a
parameter error — the run proceeds past validation. -/
theorem claim_c4 :
    (∀ s : String, isValidDateString s = true → validate_date s = Except.ok ()) ∧
    (∀ s : String, isValidDateString s = false →
      validate_date s = Except.error
        ("Invalid date format: " ++ s ++ ". Please use YYYY-MM-DD format.")) ∧
    (∀ s em : String, validate_date s = Except.error em →
      listContainsSub s.data em.data = true) ∧
    (∀ (s ak : String) (sr : HttpResponse) (tr : String → HttpResponse)
        (st : GcsStore), isValidDateString s = false →
      ingestion_main s ak sr tr st = Except.error (PyError.badParameter
        ("Invalid date format: " ++ s ++ ". Please use YYYY-MM-DD format."))) ∧
    (∀ (s : String) (g : GcsStore) (b : BqState), isValidDateString s = false →
      promotion_main s g b = Except.error (PyError.badParameter
        ("Invalid date format: " ++ s ++ ". Please use YYYY-MM-DD format."))) ∧
    (∀ (s ak : String) (sr : HttpResponse) (tr : String → HttpResponse)
        (st : GcsStore) (msg : String), isValidDateString s = true →
      ingestion_main s ak sr tr st ≠ Except.error (PyError.badParameter msg)) ∧
    (∀ (s : String) (g : GcsStore) (b : BqState) (msg : String),
      isValidDateString s = true →
      promotion_main s g b ≠ Except.error (PyError.badParameter msg)) := by
  refine ⟨?_, ?_, ?_, ?_, ?_, ?_, ?_⟩
  · intro s h
    simp [validate_date, h]
  · intro s h
    simp [validate_date, h]
  · intro s em h
    unfold validate_date at h
    by_cases hv : isValidDateString s
    · simp [hv] at h
    · simp only [hv, Bool.false_eq_true, if_false, Except.error.injEq] at h
      obtain ⟨sd⟩ := s
      subst h
      exact listContainsSub_of_parts "Invalid date format: ".data sd
        ". Please use YYYY-MM-DD format.".data
  · intro s ak sr tr st h
    unfold ingestion_main
    simp [validate_date, h, throw, throwThe, MonadExceptOf.throw, Bind.bind, Except.bind]
  · intro s g b h
    unfold promotion_main
    simp [validate_date, h, throw, throwThe, MonadExceptOf.throw, Bind.bind, Except.bind]
  · intro s ak sr tr st msg h
    unfold ingestion_main
    simp only [validate_date, h, if_true, Bind.bind, Except.bind]
    cases hs : get_stops_data ak sr s with
    | error e =>
      simp only [hs]
      intro hc
      have he : e = PyError.badParameter msg := by
        simpa [pure, Except.pure] using hc
      exact get_stops_data_not_badParameter ak sr s msg (by rw [hs, he])
    | ok df =>
      simp only [hs]
      exact trips_foldlM_not_badParameter ak tr s
        (stopIdsOf (filter_stops_data df))
        (send_stop_data_to_gcs st (filter_stops_data df) s) msg
  · intro s g b msg h
    unfold promotion_main
    simp only [validate_date, h, if_true, Bind.bind, Except.bind]
    cases hm : move_stops_data_to_bq g b promotion_source_bucket s with
    | error e =>
      simp only [hm]
      intro hc
      have he : e = PyError.badParameter msg := by
        simpa [pure, Except.pure] using hc
      have : move_stops_data_to_bq g b promotion_source_bucket s
          ≠ Except.error (PyError.badParameter msg) := by
        unfold move_stops_data_to_bq move_parquet_file_to_bq_dataset
        exact bqLoadJob_not_badParameter g b "at_bus_bronze" _ _ at_bus_job_config msg
      exact this (by rw [hm, he])
    | ok bq' =>
      simp only [hm]
      unfold move_trips_data_to_bq
      exact bq_foldlM_not_badParameter g promotion_source_bucket s
        (get_all_route_id_gcs g promotion_source_bucket s) bq' msg

/-- C4 witness: a well-formed date is accepted, a malformed one is rejected
with a message that names it, and the rejection propagates through the
ingestion entry point. -/
theorem claim_c4_witness :
    validate_date "2024-01-01" = Except.ok () ∧
    validate_date "2024-13-01" = Except.error
      "Invalid date format: 2024-13-01. Please use YYYY-MM-DD format." ∧
    listContainsSub "bad".data
      "Invalid date format: bad. Please use YYYY-MM-DD format.".data = true ∧
    ingestion_main "29/06/2025" "K" c3_response (fun _ => c3_response) []
      = Except.error (PyError.badParameter
        "Invalid date format: 29/06/2025. Please use YYYY-MM-DD format.") :=
  ⟨claim_c4.1 "2024-01-01" (by decide),
   claim_c4.2.1 "2024-13-01" (by decide),
   claim_c4.2.2.1 "bad" _ (claim_c4.2.1 "bad" (by decide)),
   claim_c4.2.2.2.1 "29/06/2025" "K" c3_response (fun _ => c3_response) []
     (by decide)⟩

/-- C1: evaluation of the end-to-end scenario at the claim's input.  With a
stops fetch returning 6 records of which 5 are allow-listed, the ingestion
run does sink exactly one stops object and exactly five trips objects, one
per surviving stop id — but every object lands in bucket `pne-open-data`
under the `at-bus/` prefix, while the subsequent promotion run for the same
date lists bucket `at-bus-open-data` under the bare date prefix: discovery
finds no trips identifiers and the stops load aborts on a missing source
object, so no table is loaded, contradicting the claim's promotion half. -/
theorem claim_c1 :
    ingestion_main "2024-01-01" "KEY" c1_stops_response c1_trips_response []
      = Except.ok c1_expected_store ∧
    c1_expected_store.map (fun o => (o.bucket, o.key))
      = [("pne-open-data", "at-bus/2024-01-01/stops.parquet"),
         ("pne-open-data", "at-bus/2024-01-01/trips_s1.parquet"),
         ("pne-open-data", "at-bus/2024-01-01/trips_s2.parquet"),
         ("pne-open-data", "at-bus/2024-01-01/trips_s3.parquet"),
         ("pne-open-data", "at-bus/2024-01-01/trips_s4.parquet"),
         ("pne-open-data", "at-bus/2024-01-01/trips_s5.parquet")] ∧
    listBlobNames c1_expected_store promotion_source_bucket "2024-01-01" = [] ∧
    get_all_route_id_gcs c1_expected_store promotion_source_bucket "2024-01-01"
      = [] ∧
    promotion_main "2024-01-01" c1_expected_store []
      = Except.error
          (PyError.exc "Not found: gs://at-bus-open-data/2024-01-01/stops.parquet") :=
  ⟨rfl, rfl, rfl, rfl, rfl⟩
